import Mathlib

/-!
# Verification of the OpenPose `Wrapper` facade (`include/openpose/wrapper/wrapper.hpp`)

This file gives a shallow embedding of the `op::Wrapper<TDatums, TDatumsSP, TWorker>`
facade class and the slice of its collaborators that its behaviour depends on, and
proves the behavioural claims about it.

Embedding conventions:
* `TDatumsSP` (a `std::shared_ptr` to a datum vector) is an abstract item type `I`;
  where the contents matter (the `cv::Mat` overload of `emplaceAndPop`) it is
  instantiated at `Option (List (Datum M))`, with `none` playing the null pointer.
* `TWorker` (a `std::shared_ptr<Worker>`) is `Option Wk`, `none` being the null pointer.
* `op::error` throws `std::runtime_error`; a raised error is an `Except.error` carrying
  the message. Every public `Wrapper` method wraps its body in `try/catch` whose handler
  logs the message and continues, returning `false` from the `bool`-returning methods;
  the catch handler is modelled by `liftTransfer`, which records the logged message in
  the `reported` field of the result so that reported usage errors stay observable.
* `ThreadManager`, `configureThreadManager` and the `WrapperStruct*` configuration
  records are declared and used by `wrapper.hpp` but implemented elsewhere; they are
  modelled from the spec (each such definition says so in its doc comment).
* Blocking calls are modelled by their sequential outcome: a blocking transfer that
  would have to wait forever in a single-threaded execution is given the clean-failure
  outcome the spec assigns to a transfer that loses the race against `stop()`.
-/

namespace OP

/-- `ThreadManagerMode` (wrapper/enumClasses.hpp): the synchronization mode choosing
which pipeline ends are driven by the caller rather than by internal threads. -/
inductive ThreadManagerMode : Type
  | Synchronous
  | AsynchronousIn
  | AsynchronousOut
  | Asynchronous
deriving DecidableEq, Repr

/-- `WorkerType` (wrapper/enumClasses.hpp): the role tag indexing the user-worker
registration arrays of `Wrapper`. -/
inductive WorkerType : Type
  | Input
  | PreProcessing
  | PostProcessing
  | Output
deriving DecidableEq, Repr

/-- A fixed-size array indexed by `WorkerType`, embedding
`std::array<T, int(WorkerType::Size)>`. -/
structure RoleArray (T : Type) : Type where
  atInput : T
  atPreProcessing : T
  atPostProcessing : T
  atOutput : T
deriving DecidableEq, Repr

/-- Indexing `a[int(workerType)]`. -/
def RoleArray.get (a : RoleArray T) : WorkerType → T
  | WorkerType.Input => a.atInput
  | WorkerType.PreProcessing => a.atPreProcessing
  | WorkerType.PostProcessing => a.atPostProcessing
  | WorkerType.Output => a.atOutput

/-- Assignment `a[int(workerType)] = v`. -/
def RoleArray.set (a : RoleArray T) (workerType : WorkerType) (v : T) : RoleArray T :=
  match workerType with
  | WorkerType.Input => { a with atInput := v }
  | WorkerType.PreProcessing => { a with atPreProcessing := v }
  | WorkerType.PostProcessing => { a with atPostProcessing := v }
  | WorkerType.Output => { a with atOutput := v }

/-- Modelled from the spec: the observable state of `ThreadManager<TDatumsSP>`, whose
implementation is not under src/. Per spec §4.4 it owns the synchronization mode, a
running flag, and the boundary queues touched by the externally-driven transfer API;
the internal pipeline graph is outside this model. -/
structure ThreadManager (I : Type) : Type where
  mode : ThreadManagerMode
  running : Bool
  inputQueue : List I
  outputQueue : List I
  inputCapacity : Nat
deriving DecidableEq, Repr

/-- The usage-error message of the modelled `ThreadManager` input-end mode check. -/
def tmEmplaceModeError : String :=
  "Emplace requires the input end to be externally driven (Asynchronous or AsynchronousIn mode)."

/-- The usage-error message of the modelled `ThreadManager` output-end mode check. -/
def tmPopModeError : String :=
  "Pop requires the output end to be externally driven (Asynchronous or AsynchronousOut mode)."

/-- Modelled from the spec: `ThreadManager::tryEmplace` (not under src/). Legal only
when the input end is externally driven (`Asynchronous` or `AsynchronousIn`), otherwise
a usage error is raised (spec §4.4); never blocks: false if the entry queue is full or
the manager is not running, else enqueues exactly one item. -/
def ThreadManager.tryEmplace (tm : ThreadManager I) (tDatums : I) :
    Except String (Bool × ThreadManager I) :=
  if tm.mode = ThreadManagerMode.Asynchronous ∨ tm.mode = ThreadManagerMode.AsynchronousIn then
    if tm.running = false ∨ tm.inputCapacity ≤ tm.inputQueue.length then
      Except.ok (false, tm)
    else
      Except.ok (true, { tm with inputQueue := tm.inputQueue ++ [tDatums] })
  else
    Except.error tmEmplaceModeError

/-- Modelled from the spec: `ThreadManager::waitAndEmplace` (not under src/). Same mode
check as `tryEmplace`; blocks until space is available or the manager stops, returning
false only on the stop outcome (spec §4.4). Blocking on a full queue is abstracted as
the stop-race outcome (spec §7, queue-stop races). -/
def ThreadManager.waitAndEmplace (tm : ThreadManager I) (tDatums : I) :
    Except String (Bool × ThreadManager I) :=
  if tm.mode = ThreadManagerMode.Asynchronous ∨ tm.mode = ThreadManagerMode.AsynchronousIn then
    if tm.running = false ∨ tm.inputCapacity ≤ tm.inputQueue.length then
      Except.ok (false, tm)
    else
      Except.ok (true, { tm with inputQueue := tm.inputQueue ++ [tDatums] })
  else
    Except.error tmEmplaceModeError

/-- Modelled from the spec: `ThreadManager::tryPush` (not under src/). Same contract as
`tryEmplace` but copying instead of moving; identical on embedded values. -/
def ThreadManager.tryPush (tm : ThreadManager I) (tDatums : I) :
    Except String (Bool × ThreadManager I) :=
  tm.tryEmplace tDatums

/-- Modelled from the spec: `ThreadManager::waitAndPush` (not under src/). Same contract
as `waitAndEmplace` but copying instead of moving; identical on embedded values. -/
def ThreadManager.waitAndPush (tm : ThreadManager I) (tDatums : I) :
    Except String (Bool × ThreadManager I) :=
  tm.waitAndEmplace tDatums

/-- Modelled from the spec: `ThreadManager::tryPop` (not under src/). Legal only when
the output end is externally driven (`Asynchronous` or `AsynchronousOut`), otherwise a
usage error is raised (spec §4.4); never blocks: false if the exit queue is empty or the
manager is not running, else dequeues exactly one item into the argument slot. -/
def ThreadManager.tryPop (tm : ThreadManager I) (tDatums : I) :
    Except String (Bool × I × ThreadManager I) :=
  if tm.mode = ThreadManagerMode.Asynchronous ∨ tm.mode = ThreadManagerMode.AsynchronousOut then
    if tm.running = false then
      Except.ok (false, tDatums, tm)
    else
      match tm.outputQueue with
      | [] => Except.ok (false, tDatums, tm)
      | x :: rest => Except.ok (true, x, { tm with outputQueue := rest })
  else
    Except.error tmPopModeError

/-- Modelled from the spec: `ThreadManager::waitAndPop` (not under src/). Same mode
check as `tryPop`; blocks until an item arrives or the manager stops, returning false
only on the stop outcome (spec §4.4). Blocking on an empty queue is abstracted as the
stop-race outcome (spec §7, queue-stop races). -/
def ThreadManager.waitAndPop (tm : ThreadManager I) (tDatums : I) :
    Except String (Bool × I × ThreadManager I) :=
  if tm.mode = ThreadManagerMode.Asynchronous ∨ tm.mode = ThreadManagerMode.AsynchronousOut then
    if tm.running = false then
      Except.ok (false, tDatums, tm)
    else
      match tm.outputQueue with
      | [] => Except.ok (false, tDatums, tm)
      | x :: rest => Except.ok (true, x, { tm with outputQueue := rest })
  else
    Except.error tmPopModeError

/-- Modelled from the spec: `ThreadManager::start` (not under src/): spawns the graph
threads and returns (spec §4.4). -/
def ThreadManager.start (tm : ThreadManager I) : ThreadManager I :=
  { tm with running := true }

/-- Modelled from the spec: the state after the blocking `ThreadManager::exec` (not
under src/) returns: the pipeline has reached `Stopped` (spec §4.4). -/
def ThreadManager.exec (tm : ThreadManager I) : ThreadManager I :=
  { tm with running := false }

/-- Modelled from the spec: `ThreadManager::stop` (not under src/): idempotent, signals
stop on every queue, joins the threads and transitions to `Stopped` (spec §4.4). -/
def ThreadManager.stop (tm : ThreadManager I) : ThreadManager I :=
  { tm with running := false }

/-- Modelled from the spec: `ThreadManager::reset` (not under src/): tears the manager
down to a fresh state for its mode — threads joined, queues drained and released
(spec §3, lifecycle). -/
def ThreadManager.reset (tm : ThreadManager I) : ThreadManager I :=
  { mode := tm.mode, running := false, inputQueue := [], outputQueue := [],
    inputCapacity := tm.inputCapacity }

/-- Modelled from the spec: `configureThreadManager` (wrapperAuxiliary.hpp, not under
src/) wires the configured stages and user workers into the thread manager before
`start()`/`exec()`. Its effect on the fields modelled here (mode, running flag,
boundary queues) is none: it builds the internal pipeline graph, which is outside this
model. -/
def configureThreadManager (tm : ThreadManager I) : ThreadManager I :=
  tm

/-- The state of `op::Wrapper<TDatums, TDatumsSP, TWorker>` (wrapper.hpp, private
section): `Wk` is the pointee type of `TWorker`, `I` embeds `TDatumsSP`, and `C`
abstracts the six `WrapperStruct*` configuration records (declared elsewhere). -/
structure Wrapper (Wk I C : Type) : Type where
  mThreadManagerMode : ThreadManagerMode
  mThreadManager : ThreadManager I
  mMultiThreadEnabled : Bool
  wrapperStructs : C
  mUserWsOnNewThread : RoleArray Bool
  mUserWs : RoleArray (List (Option Wk))
deriving DecidableEq, Repr

/-- The result a caller observes from one public `bool`-returning `Wrapper` call: the
returned boolean, the error message reported (logged) during the call if any, the value
of the by-reference `tDatums` argument after the call, and the object state after the
call. -/
structure TransferResult (Wk I C : Type) : Type where
  ok : Bool
  reported : Option String
  datumsOut : I
  state : Wrapper Wk I C
deriving DecidableEq, Repr

/-- The `try { ... } catch (const std::exception& e) { error(e.what(), ...); return
false; }` frame shared by every transfer method of `Wrapper`: a raised error is logged
and converted into a `false` return, leaving the object as it was when the error was
raised (every raise in the embedded bodies happens before any mutation). -/
def liftTransfer (w : Wrapper Wk I C) (tDatums : I)
    (body : Except String (Bool × I × Wrapper Wk I C)) : TransferResult Wk I C :=
  match body with
  | Except.ok (b, dOut, wOut) => { ok := b, reported := none, datumsOut := dOut, state := wOut }
  | Except.error msg => { ok := false, reported := some msg, datumsOut := tDatums, state := w }

/-- The usage-error message of `Wrapper::tryEmplace` / `waitAndEmplace`
(wrapper.hpp:463, 480). -/
def inputWorkerEmplaceError : String :=
  "Emplace cannot be called if an input worker was already selected."

/-- The usage-error message of `Wrapper::tryPush` / `waitAndPush`
(wrapper.hpp:497, 514). -/
def inputWorkerPushError : String :=
  "Push cannot be called if an input worker was already selected."

/-- The usage-error message of `Wrapper::tryPop` / `waitAndPop`
(wrapper.hpp:531, 548). -/
def outputWorkerPopError : String :=
  "Pop cannot be called if an output worker was already selected."

/-- Body of `Wrapper::tryEmplace` (wrapper.hpp:457-472): raise a usage error if an
input worker is registered, else delegate to `mThreadManager.tryEmplace`. -/
def Wrapper.tryEmplaceBody (w : Wrapper Wk I C) (tDatums : I) :
    Except String (Bool × I × Wrapper Wk I C) :=
  if (w.mUserWs.get WorkerType.Input).isEmpty = false then
    Except.error inputWorkerEmplaceError
  else
    match w.mThreadManager.tryEmplace tDatums with
    | Except.error msg => Except.error msg
    | Except.ok (b, tm) => Except.ok (b, tDatums, { w with mThreadManager := tm })

/-- `Wrapper::tryEmplace` (wrapper.hpp:457-472), with its catch frame. -/
def Wrapper.tryEmplace (w : Wrapper Wk I C) (tDatums : I) : TransferResult Wk I C :=
  liftTransfer w tDatums (w.tryEmplaceBody tDatums)

/-- Body of `Wrapper::waitAndEmplace` (wrapper.hpp:474-489). -/
def Wrapper.waitAndEmplaceBody (w : Wrapper Wk I C) (tDatums : I) :
    Except String (Bool × I × Wrapper Wk I C) :=
  if (w.mUserWs.get WorkerType.Input).isEmpty = false then
    Except.error inputWorkerEmplaceError
  else
    match w.mThreadManager.waitAndEmplace tDatums with
    | Except.error msg => Except.error msg
    | Except.ok (b, tm) => Except.ok (b, tDatums, { w with mThreadManager := tm })

/-- `Wrapper::waitAndEmplace` (wrapper.hpp:474-489), with its catch frame. -/
def Wrapper.waitAndEmplace (w : Wrapper Wk I C) (tDatums : I) : TransferResult Wk I C :=
  liftTransfer w tDatums (w.waitAndEmplaceBody tDatums)

/-- Body of `Wrapper::tryPush` (wrapper.hpp:491-506). -/
def Wrapper.tryPushBody (w : Wrapper Wk I C) (tDatums : I) :
    Except String (Bool × I × Wrapper Wk I C) :=
  if (w.mUserWs.get WorkerType.Input).isEmpty = false then
    Except.error inputWorkerPushError
  else
    match w.mThreadManager.tryPush tDatums with
    | Except.error msg => Except.error msg
    | Except.ok (b, tm) => Except.ok (b, tDatums, { w with mThreadManager := tm })

/-- `Wrapper::tryPush` (wrapper.hpp:491-506), with its catch frame. -/
def Wrapper.tryPush (w : Wrapper Wk I C) (tDatums : I) : TransferResult Wk I C :=
  liftTransfer w tDatums (w.tryPushBody tDatums)

/-- Body of `Wrapper::waitAndPush` (wrapper.hpp:508-523). -/
def Wrapper.waitAndPushBody (w : Wrapper Wk I C) (tDatums : I) :
    Except String (Bool × I × Wrapper Wk I C) :=
  if (w.mUserWs.get WorkerType.Input).isEmpty = false then
    Except.error inputWorkerPushError
  else
    match w.mThreadManager.waitAndPush tDatums with
    | Except.error msg => Except.error msg
    | Except.ok (b, tm) => Except.ok (b, tDatums, { w with mThreadManager := tm })

/-- `Wrapper::waitAndPush` (wrapper.hpp:508-523), with its catch frame. -/
def Wrapper.waitAndPush (w : Wrapper Wk I C) (tDatums : I) : TransferResult Wk I C :=
  liftTransfer w tDatums (w.waitAndPushBody tDatums)

/-- Body of `Wrapper::tryPop` (wrapper.hpp:525-540): raise a usage error if an output
worker is registered, else delegate to `mThreadManager.tryPop`. -/
def Wrapper.tryPopBody (w : Wrapper Wk I C) (tDatums : I) :
    Except String (Bool × I × Wrapper Wk I C) :=
  if (w.mUserWs.get WorkerType.Output).isEmpty = false then
    Except.error outputWorkerPopError
  else
    match w.mThreadManager.tryPop tDatums with
    | Except.error msg => Except.error msg
    | Except.ok (b, dOut, tm) => Except.ok (b, dOut, { w with mThreadManager := tm })

/-- `Wrapper::tryPop` (wrapper.hpp:525-540), with its catch frame. -/
def Wrapper.tryPop (w : Wrapper Wk I C) (tDatums : I) : TransferResult Wk I C :=
  liftTransfer w tDatums (w.tryPopBody tDatums)

/-- Body of `Wrapper::waitAndPop` (wrapper.hpp:542-557). -/
def Wrapper.waitAndPopBody (w : Wrapper Wk I C) (tDatums : I) :
    Except String (Bool × I × Wrapper Wk I C) :=
  if (w.mUserWs.get WorkerType.Output).isEmpty = false then
    Except.error outputWorkerPopError
  else
    match w.mThreadManager.waitAndPop tDatums with
    | Except.error msg => Except.error msg
    | Except.ok (b, dOut, tm) => Except.ok (b, dOut, { w with mThreadManager := tm })

/-- `Wrapper::waitAndPop` (wrapper.hpp:542-557), with its catch frame. -/
def Wrapper.waitAndPop (w : Wrapper Wk I C) (tDatums : I) : TransferResult Wk I C :=
  liftTransfer w tDatums (w.waitAndPopBody tDatums)

/-- `Wrapper::emplaceAndPop` (wrapper.hpp:559-574):
`if (waitAndEmplace(tDatums)) return waitAndPop(tDatums); return false;`.
The inner calls catch their own errors, so the outer catch frame is never reached; the
`reported` field carries whatever message the inner call on the taken path logged. -/
def Wrapper.emplaceAndPop (w : Wrapper Wk I C) (tDatums : I) : TransferResult Wk I C :=
  let r1 := w.waitAndEmplace tDatums
  if r1.ok then
    r1.state.waitAndPop r1.datumsOut
  else
    { ok := false, reported := r1.reported, datumsOut := r1.datumsOut, state := r1.state }

/-- `Wrapper::setWorker` body (wrapper.hpp:273-291): `error` on a null worker, else
clear the role's vector, emplace the worker, and set the role's new-thread flag. -/
def Wrapper.setWorkerBody (w : Wrapper Wk I C) (workerType : WorkerType)
    (worker : Option Wk) (workerOnNewThread : Bool) : Except String (Wrapper Wk I C) :=
  match worker with
  | none => Except.error "Your worker is a nullptr."
  | some _ =>
    Except.ok
      { w with
        mUserWs := w.mUserWs.set workerType [worker],
        mUserWsOnNewThread := w.mUserWsOnNewThread.set workerType workerOnNewThread }

/-- `Wrapper::setWorker` (wrapper.hpp:273-291), with its catch frame: a raised error is
logged (first component) and the call returns with the object unchanged. -/
def Wrapper.setWorker (w : Wrapper Wk I C) (workerType : WorkerType)
    (worker : Option Wk) (workerOnNewThread : Bool) : Option String × Wrapper Wk I C :=
  match w.setWorkerBody workerType worker workerOnNewThread with
  | Except.error msg => (some msg, w)
  | Except.ok wOut => (none, wOut)

/-- `Wrapper::disableMultiThreading` (wrapper.hpp:260-271). -/
def Wrapper.disableMultiThreading (w : Wrapper Wk I C) : Wrapper Wk I C :=
  { w with mMultiThreadEnabled := false }

/-- `Wrapper::configure` (wrapper.hpp:293-392): stores the given configuration records;
all six overloads only assign `mWrapperStruct*` members, abstracted as one field. -/
def Wrapper.configure (w : Wrapper Wk I C) (cfg : C) : Wrapper Wk I C :=
  { w with wrapperStructs := cfg }

/-- `Wrapper::stop` (wrapper.hpp:430-441): delegates to `mThreadManager.stop()`. -/
def Wrapper.stopCall (w : Wrapper Wk I C) : Wrapper Wk I C :=
  { w with mThreadManager := w.mThreadManager.stop }

/-- `Wrapper::start` (wrapper.hpp:412-428): `configureThreadManager` then
`mThreadManager.start()`. -/
def Wrapper.startCall (w : Wrapper Wk I C) : Wrapper Wk I C :=
  { w with mThreadManager := (configureThreadManager w.mThreadManager).start }

/-- `Wrapper::exec` (wrapper.hpp:394-410): `configureThreadManager` then the blocking
`mThreadManager.exec()`. -/
def Wrapper.execCall (w : Wrapper Wk I C) : Wrapper Wk I C :=
  { w with mThreadManager := (configureThreadManager w.mThreadManager).exec }

/-- `Wrapper::isRunning` (wrapper.hpp:443-455). -/
def Wrapper.isRunning (w : Wrapper Wk I C) : Bool :=
  w.mThreadManager.running

/-- `Wrapper::~Wrapper` (wrapper.hpp:242-258): `stop()`, then `mThreadManager.reset()`,
then `userW.clear()` for every entry of `mUserWs`; the resulting state is the one the
members hold when their own destructors run. -/
def Wrapper.destruct (w : Wrapper Wk I C) : Wrapper Wk I C :=
  let w1 := w.stopCall
  { w1 with
    mThreadManager := w1.mThreadManager.reset,
    mUserWs :=
      { atInput := [], atPreProcessing := [], atPostProcessing := [], atOutput := [] } }

/-- A single datum as far as `Wrapper::emplaceAndPop(const cv::Mat&)` touches it: the
`cvInputData` member (`none` embeds the default-constructed empty `cv::Mat`). -/
structure Datum (M : Type) : Type where
  cvInputData : Option M
deriving DecidableEq, Repr

/-- The batch built by `Wrapper::emplaceAndPop(const cv::Mat&)` (wrapper.hpp:581-586):
`make_shared<TDatums>()`, `emplace_back()` of one default datum, then
`datum.cvInputData = cvMat`. -/
def mkSingleDatumBatch (cvMat : M) : Option (List (Datum M)) :=
  some [{ cvInputData := some cvMat }]

/-- `Wrapper::emplaceAndPop(const cv::Mat&)` (wrapper.hpp:576-597): builds the one-datum
batch, runs the batch-level `emplaceAndPop` on it (by reference), and returns the batch
variable; the boolean result of the inner call is discarded. The triple also exposes the
message reported during the call and the final object state. -/
def Wrapper.emplaceAndPopMat (w : Wrapper Wk (Option (List (Datum M))) C) (cvMat : M) :
    Option (List (Datum M)) × Option String × Wrapper Wk (Option (List (Datum M))) C :=
  let datumsPtr := mkSingleDatumBatch cvMat
  let r := w.emplaceAndPop datumsPtr
  (r.datumsOut, r.reported, r.state)

/-- The outcome of an input-end transfer call that passes the worker-registration
check: the ThreadManager verdict lifted through the catch frame. -/
def delegatedEmplace (w : Wrapper Wk I C) (d : I)
    (r : Except String (Bool × ThreadManager I)) : TransferResult Wk I C :=
  match r with
  | Except.error msg => { ok := false, reported := some msg, datumsOut := d, state := w }
  | Except.ok (b, tm) =>
    { ok := b, reported := none, datumsOut := d, state := { w with mThreadManager := tm } }

/-- The outcome of an output-end transfer call that passes the worker-registration
check: the ThreadManager verdict lifted through the catch frame. -/
def delegatedPop (w : Wrapper Wk I C) (d : I)
    (r : Except String (Bool × I × ThreadManager I)) : TransferResult Wk I C :=
  match r with
  | Except.error msg => { ok := false, reported := some msg, datumsOut := d, state := w }
  | Except.ok (b, dOut, tm) =>
    { ok := b, reported := none, datumsOut := dOut, state := { w with mThreadManager := tm } }

/-! ### Concrete states used as evaluation points -/

/-- A running thread manager in fully asynchronous mode, capacity 2, empty queues. -/
def tmAsync : ThreadManager Nat :=
  { mode := ThreadManagerMode.Asynchronous, running := true, inputQueue := [],
    outputQueue := [], inputCapacity := 2 }

/-- An empty user-worker registration table. -/
def emptyWs : RoleArray (List (Option Nat)) :=
  { atInput := [], atPreProcessing := [], atPostProcessing := [], atOutput := [] }

/-- All-`true` new-thread flags. -/
def allNewThread : RoleArray Bool :=
  { atInput := true, atPreProcessing := true, atPostProcessing := true, atOutput := true }

/-- A running wrapper in fully asynchronous mode with no user workers registered. -/
def wAsync : Wrapper Nat Nat Unit :=
  { mThreadManagerMode := ThreadManagerMode.Asynchronous, mThreadManager := tmAsync,
    mMultiThreadEnabled := true, wrapperStructs := (), mUserWsOnNewThread := allNewThread,
    mUserWs := emptyWs }

/-- A running wrapper in `Synchronous` mode with no user workers registered. -/
def wSync : Wrapper Nat Nat Unit :=
  { mThreadManagerMode := ThreadManagerMode.Synchronous,
    mThreadManager := { tmAsync with mode := ThreadManagerMode.Synchronous },
    mMultiThreadEnabled := true, wrapperStructs := (), mUserWsOnNewThread := allNewThread,
    mUserWs := emptyWs }

/-- A running wrapper in `AsynchronousIn` mode with no user workers registered. -/
def wAsyncIn : Wrapper Nat Nat Unit :=
  { mThreadManagerMode := ThreadManagerMode.AsynchronousIn,
    mThreadManager := { tmAsync with mode := ThreadManagerMode.AsynchronousIn },
    mMultiThreadEnabled := true, wrapperStructs := (), mUserWsOnNewThread := allNewThread,
    mUserWs := emptyWs }

/-- A running asynchronous wrapper with an input worker registered. -/
def wInputBound : Wrapper Nat Nat Unit :=
  { wAsync with mUserWs := { emptyWs with atInput := [some 1] } }

/-- A running asynchronous wrapper with an input worker and an output worker
registered. -/
def wBothBound : Wrapper Nat Nat Unit :=
  { wAsync with mUserWs := { emptyWs with atInput := [some 1], atOutput := [some 2] } }

/-- A running `Synchronous`-mode wrapper over `cv::Mat`-batch items, used to evaluate
the `cv::Mat` overload of `emplaceAndPop` on a failing transfer. -/
def wSyncMat : Wrapper Nat (Option (List (Datum Nat))) Unit :=
  { mThreadManagerMode := ThreadManagerMode.Synchronous,
    mThreadManager :=
      { mode := ThreadManagerMode.Synchronous, running := true, inputQueue := [],
        outputQueue := [], inputCapacity := 2 },
    mMultiThreadEnabled := true, wrapperStructs := (), mUserWsOnNewThread := allNewThread,
    mUserWs := { atInput := [], atPreProcessing := [], atPostProcessing := [], atOutput := [] } }

/-! ### Helper lemmas -/

lemma RoleArray.get_set_same (a : RoleArray T) (wt : WorkerType) (v : T) :
    (a.set wt v).get wt = v := by
  cases wt <;> rfl

lemma RoleArray.get_set_other (a : RoleArray T) (wt wt2 : WorkerType) (v : T)
    (h : wt2 ≠ wt) : (a.set wt v).get wt2 = a.get wt2 := by
  cases wt <;> cases wt2 <;> first | rfl | exact absurd rfl h

lemma tryEmplace_mode (w : Wrapper Wk I C) (d : I) :
    (w.tryEmplace d).state.mThreadManagerMode = w.mThreadManagerMode := by
  unfold Wrapper.tryEmplace Wrapper.tryEmplaceBody
  by_cases hc : (w.mUserWs.get WorkerType.Input).isEmpty = false
  · simp [hc, liftTransfer]
  · simp only [hc, if_neg, ite_false]
    cases hTM : w.mThreadManager.tryEmplace d with
    | error m => simp [liftTransfer]
    | ok p =>
      obtain ⟨b, tm⟩ := p
      simp [liftTransfer]

lemma waitAndEmplace_mode (w : Wrapper Wk I C) (d : I) :
    (w.waitAndEmplace d).state.mThreadManagerMode = w.mThreadManagerMode := by
  unfold Wrapper.waitAndEmplace Wrapper.waitAndEmplaceBody
  by_cases hc : (w.mUserWs.get WorkerType.Input).isEmpty = false
  · simp [hc, liftTransfer]
  · simp only [hc, if_neg, ite_false]
    cases hTM : w.mThreadManager.waitAndEmplace d with
    | error m => simp [liftTransfer]
    | ok p =>
      obtain ⟨b, tm⟩ := p
      simp [liftTransfer]

lemma tryPush_mode (w : Wrapper Wk I C) (d : I) :
    (w.tryPush d).state.mThreadManagerMode = w.mThreadManagerMode := by
  unfold Wrapper.tryPush Wrapper.tryPushBody
  by_cases hc : (w.mUserWs.get WorkerType.Input).isEmpty = false
  · simp [hc, liftTransfer]
  · simp only [hc, if_neg, ite_false]
    cases hTM : w.mThreadManager.tryPush d with
    | error m => simp [liftTransfer]
    | ok p =>
      obtain ⟨b, tm⟩ := p
      simp [liftTransfer]

lemma waitAndPush_mode (w : Wrapper Wk I C) (d : I) :
    (w.waitAndPush d).state.mThreadManagerMode = w.mThreadManagerMode := by
  unfold Wrapper.waitAndPush Wrapper.waitAndPushBody
  by_cases hc : (w.mUserWs.get WorkerType.Input).isEmpty = false
  · simp [hc, liftTransfer]
  · simp only [hc, if_neg, ite_false]
    cases hTM : w.mThreadManager.waitAndPush d with
    | error m => simp [liftTransfer]
    | ok p =>
      obtain ⟨b, tm⟩ := p
      simp [liftTransfer]

lemma tryPop_mode (w : Wrapper Wk I C) (d : I) :
    (w.tryPop d).state.mThreadManagerMode = w.mThreadManagerMode := by
  unfold Wrapper.tryPop Wrapper.tryPopBody
  by_cases hc : (w.mUserWs.get WorkerType.Output).isEmpty = false
  · simp [hc, liftTransfer]
  · simp only [hc, if_neg, ite_false]
    cases hTM : w.mThreadManager.tryPop d with
    | error m => simp [liftTransfer]
    | ok p =>
      obtain ⟨b, p2⟩ := p
      obtain ⟨dOut, tm⟩ := p2
      simp [liftTransfer]

lemma waitAndPop_mode (w : Wrapper Wk I C) (d : I) :
    (w.waitAndPop d).state.mThreadManagerMode = w.mThreadManagerMode := by
  unfold Wrapper.waitAndPop Wrapper.waitAndPopBody
  by_cases hc : (w.mUserWs.get WorkerType.Output).isEmpty = false
  · simp [hc, liftTransfer]
  · simp only [hc, if_neg, ite_false]
    cases hTM : w.mThreadManager.waitAndPop d with
    | error m => simp [liftTransfer]
    | ok p =>
      obtain ⟨b, p2⟩ := p
      obtain ⟨dOut, tm⟩ := p2
      simp [liftTransfer]

lemma waitAndEmplace_rejected_of_wrong_mode (w : Wrapper Wk I C) (d : I)
    (h1 : w.mThreadManager.mode ≠ ThreadManagerMode.Asynchronous)
    (h2 : w.mThreadManager.mode ≠ ThreadManagerMode.AsynchronousIn) :
    (w.waitAndEmplace d).ok = false ∧ (w.waitAndEmplace d).reported.isSome = true ∧
      (w.waitAndEmplace d).state = w := by
  unfold Wrapper.waitAndEmplace Wrapper.waitAndEmplaceBody ThreadManager.waitAndEmplace
  by_cases hc : (w.mUserWs.get WorkerType.Input).isEmpty = false
  · simp [hc, liftTransfer]
  · simp [hc, h1, h2, liftTransfer]

lemma waitAndPop_rejected_of_wrong_mode (w : Wrapper Wk I C) (d : I)
    (h1 : w.mThreadManager.mode ≠ ThreadManagerMode.Asynchronous)
    (h2 : w.mThreadManager.mode ≠ ThreadManagerMode.AsynchronousOut) :
    (w.waitAndPop d).ok = false ∧ (w.waitAndPop d).reported.isSome = true ∧
      (w.waitAndPop d).state = w := by
  unfold Wrapper.waitAndPop Wrapper.waitAndPopBody ThreadManager.waitAndPop
  by_cases hc : (w.mUserWs.get WorkerType.Output).isEmpty = false
  · simp [hc, liftTransfer]
  · simp [hc, h1, h2, liftTransfer]

lemma waitAndEmplace_tm_mode (w : Wrapper Wk I C) (d : I) :
    (w.waitAndEmplace d).state.mThreadManager.mode = w.mThreadManager.mode := by
  unfold Wrapper.waitAndEmplace Wrapper.waitAndEmplaceBody ThreadManager.waitAndEmplace
  by_cases hc : (w.mUserWs.get WorkerType.Input).isEmpty = false
  · simp [hc, liftTransfer]
  · by_cases hm : w.mThreadManager.mode = ThreadManagerMode.Asynchronous ∨
      w.mThreadManager.mode = ThreadManagerMode.AsynchronousIn
    · by_cases hr : w.mThreadManager.running = false ∨
        w.mThreadManager.inputCapacity ≤ w.mThreadManager.inputQueue.length
      · simp [hc, hm, hr, liftTransfer]
      · simp [hc, hm, hr, liftTransfer]
    · simp [hc, hm, liftTransfer]

lemma waitAndEmplace_datumsOut (w : Wrapper Wk I C) (d : I) :
    (w.waitAndEmplace d).datumsOut = d := by
  unfold Wrapper.waitAndEmplace Wrapper.waitAndEmplaceBody
  by_cases hc : (w.mUserWs.get WorkerType.Input).isEmpty = false
  · simp [hc, liftTransfer]
  · simp only [hc, if_neg, ite_false]
    cases hTM : w.mThreadManager.waitAndEmplace d with
    | error m => simp [liftTransfer]
    | ok p =>
      obtain ⟨b, tm⟩ := p
      simp [liftTransfer]

lemma waitAndPop_fail_datumsOut (w : Wrapper Wk I C) (d : I)
    (h : (w.waitAndPop d).ok = false) : (w.waitAndPop d).datumsOut = d := by
  unfold Wrapper.waitAndPop Wrapper.waitAndPopBody ThreadManager.waitAndPop at h ⊢
  by_cases hc : (w.mUserWs.get WorkerType.Output).isEmpty = false
  · simp [hc, liftTransfer]
  · by_cases hm : w.mThreadManager.mode = ThreadManagerMode.Asynchronous ∨
      w.mThreadManager.mode = ThreadManagerMode.AsynchronousOut
    · by_cases hr : w.mThreadManager.running = false
      · simp [hc, hm, hr, liftTransfer]
      · cases hq : w.mThreadManager.outputQueue with
        | nil => simp [hc, hm, hr, hq, liftTransfer]
        | cons x rest =>
          exfalso
          simp [hc, hm, hr, hq, liftTransfer] at h
    · simp [hc, hm, liftTransfer]

lemma emplaceAndPop_fail_datumsOut (w : Wrapper Wk I C) (d : I)
    (h : (w.emplaceAndPop d).ok = false) : (w.emplaceAndPop d).datumsOut = d := by
  unfold Wrapper.emplaceAndPop at h ⊢
  by_cases h1 : (w.waitAndEmplace d).ok
  · simp only [h1, if_true] at h ⊢
    rw [waitAndEmplace_datumsOut] at h ⊢
    exact waitAndPop_fail_datumsOut _ d h
  · simp only [h1, if_false, Bool.false_eq_true] at h ⊢
    exact waitAndEmplace_datumsOut w d

lemma emplaceAndPop_mode (w : Wrapper Wk I C) (d : I) :
    (w.emplaceAndPop d).state.mThreadManagerMode = w.mThreadManagerMode := by
  unfold Wrapper.emplaceAndPop
  by_cases h : (w.waitAndEmplace d).ok
  · simp only [h, if_true]
    rw [waitAndPop_mode, waitAndEmplace_mode]
  · simp only [h, if_false, Bool.false_eq_true]
    exact waitAndEmplace_mode w d

lemma tryEmplace_delegates (w : Wrapper Wk I C) (d : I)
    (h : (w.mUserWs.get WorkerType.Input).isEmpty = true) :
    w.tryEmplace d = delegatedEmplace w d (w.mThreadManager.tryEmplace d) := by
  unfold Wrapper.tryEmplace Wrapper.tryEmplaceBody
  cases hTM : w.mThreadManager.tryEmplace d with
  | error m => simp [h, hTM, liftTransfer, delegatedEmplace]
  | ok p =>
    obtain ⟨b, tm⟩ := p
    simp [h, hTM, liftTransfer, delegatedEmplace]

lemma waitAndEmplace_delegates (w : Wrapper Wk I C) (d : I)
    (h : (w.mUserWs.get WorkerType.Input).isEmpty = true) :
    w.waitAndEmplace d = delegatedEmplace w d (w.mThreadManager.waitAndEmplace d) := by
  unfold Wrapper.waitAndEmplace Wrapper.waitAndEmplaceBody
  cases hTM : w.mThreadManager.waitAndEmplace d with
  | error m => simp [h, hTM, liftTransfer, delegatedEmplace]
  | ok p =>
    obtain ⟨b, tm⟩ := p
    simp [h, hTM, liftTransfer, delegatedEmplace]

lemma tryPush_delegates (w : Wrapper Wk I C) (d : I)
    (h : (w.mUserWs.get WorkerType.Input).isEmpty = true) :
    w.tryPush d = delegatedEmplace w d (w.mThreadManager.tryPush d) := by
  unfold Wrapper.tryPush Wrapper.tryPushBody
  cases hTM : w.mThreadManager.tryPush d with
  | error m => simp [h, hTM, liftTransfer, delegatedEmplace]
  | ok p =>
    obtain ⟨b, tm⟩ := p
    simp [h, hTM, liftTransfer, delegatedEmplace]

lemma waitAndPush_delegates (w : Wrapper Wk I C) (d : I)
    (h : (w.mUserWs.get WorkerType.Input).isEmpty = true) :
    w.waitAndPush d = delegatedEmplace w d (w.mThreadManager.waitAndPush d) := by
  unfold Wrapper.waitAndPush Wrapper.waitAndPushBody
  cases hTM : w.mThreadManager.waitAndPush d with
  | error m => simp [h, hTM, liftTransfer, delegatedEmplace]
  | ok p =>
    obtain ⟨b, tm⟩ := p
    simp [h, hTM, liftTransfer, delegatedEmplace]

lemma tryPop_delegates (w : Wrapper Wk I C) (d : I)
    (h : (w.mUserWs.get WorkerType.Output).isEmpty = true) :
    w.tryPop d = delegatedPop w d (w.mThreadManager.tryPop d) := by
  unfold Wrapper.tryPop Wrapper.tryPopBody
  cases hTM : w.mThreadManager.tryPop d with
  | error m => simp [h, hTM, liftTransfer, delegatedPop]
  | ok p =>
    obtain ⟨b, p2⟩ := p
    obtain ⟨dOut, tm⟩ := p2
    simp [h, hTM, liftTransfer, delegatedPop]

lemma waitAndPop_delegates (w : Wrapper Wk I C) (d : I)
    (h : (w.mUserWs.get WorkerType.Output).isEmpty = true) :
    w.waitAndPop d = delegatedPop w d (w.mThreadManager.waitAndPop d) := by
  unfold Wrapper.waitAndPop Wrapper.waitAndPopBody
  cases hTM : w.mThreadManager.waitAndPop d with
  | error m => simp [h, hTM, liftTransfer, delegatedPop]
  | ok p =>
    obtain ⟨b, p2⟩ := p
    obtain ⟨dOut, tm⟩ := p2
    simp [h, hTM, liftTransfer, delegatedPop]

/-! ### Claims -/

/-- C1: if an Input worker is registered, every input-end transfer call (`tryEmplace`,
`waitAndEmplace`, `tryPush`, `waitAndPush`) fails with the usage error, returns false
and leaves the wrapper (in particular the entry queue) unchanged; symmetrically, with
an Output worker registered, `tryPop` and `waitAndPop` fail with the usage error,
return false and leave the wrapper unchanged; when the corresponding registration is
empty again, the same call is no longer rejected by this check — its outcome is exactly
the delegated ThreadManager verdict. -/
theorem claim_C1 {Wk I C : Type} (w : Wrapper Wk I C) (d : I) :
    ((w.mUserWs.get WorkerType.Input).isEmpty = false →
      w.tryEmplace d =
        { ok := false, reported := some inputWorkerEmplaceError, datumsOut := d, state := w } ∧
      w.waitAndEmplace d =
        { ok := false, reported := some inputWorkerEmplaceError, datumsOut := d, state := w } ∧
      w.tryPush d =
        { ok := false, reported := some inputWorkerPushError, datumsOut := d, state := w } ∧
      w.waitAndPush d =
        { ok := false, reported := some inputWorkerPushError, datumsOut := d, state := w })
    ∧
    ((w.mUserWs.get WorkerType.Output).isEmpty = false →
      w.tryPop d =
        { ok := false, reported := some outputWorkerPopError, datumsOut := d, state := w } ∧
      w.waitAndPop d =
        { ok := false, reported := some outputWorkerPopError, datumsOut := d, state := w })
    ∧
    ((w.mUserWs.get WorkerType.Input).isEmpty = true →
      w.tryEmplace d = delegatedEmplace w d (w.mThreadManager.tryEmplace d) ∧
      w.waitAndEmplace d = delegatedEmplace w d (w.mThreadManager.waitAndEmplace d) ∧
      w.tryPush d = delegatedEmplace w d (w.mThreadManager.tryPush d) ∧
      w.waitAndPush d = delegatedEmplace w d (w.mThreadManager.waitAndPush d))
    ∧
    ((w.mUserWs.get WorkerType.Output).isEmpty = true →
      w.tryPop d = delegatedPop w d (w.mThreadManager.tryPop d) ∧
      w.waitAndPop d = delegatedPop w d (w.mThreadManager.waitAndPop d)) := by
  refine ⟨?_, ?_, ?_, ?_⟩
  · intro h
    refine ⟨?_, ?_, ?_, ?_⟩ <;>
      simp [Wrapper.tryEmplace, Wrapper.tryEmplaceBody, Wrapper.waitAndEmplace,
        Wrapper.waitAndEmplaceBody, Wrapper.tryPush, Wrapper.tryPushBody,
        Wrapper.waitAndPush, Wrapper.waitAndPushBody, h, liftTransfer]
  · intro h
    refine ⟨?_, ?_⟩ <;>
      simp [Wrapper.tryPop, Wrapper.tryPopBody, Wrapper.waitAndPop,
        Wrapper.waitAndPopBody, h, liftTransfer]
  · intro h
    exact ⟨tryEmplace_delegates w d h, waitAndEmplace_delegates w d h,
      tryPush_delegates w d h, waitAndPush_delegates w d h⟩
  · intro h
    exact ⟨tryPop_delegates w d h, waitAndPop_delegates w d h⟩

/-- C1 witness: with both ends registered (`wBothBound`) the calls are rejected with
the usage error; with no registration (`wAsync`) they delegate to the thread
manager. -/
theorem claim_C1_witness :
    wBothBound.tryEmplace 5 =
      { ok := false, reported := some inputWorkerEmplaceError, datumsOut := 5,
        state := wBothBound } ∧
    wBothBound.tryPop 5 =
      { ok := false, reported := some outputWorkerPopError, datumsOut := 5,
        state := wBothBound } ∧
    wAsync.tryEmplace 5 = delegatedEmplace wAsync 5 (wAsync.mThreadManager.tryEmplace 5) ∧
    wAsync.waitAndPop 5 = delegatedPop wAsync 5 (wAsync.mThreadManager.waitAndPop 5) :=
  ⟨((claim_C1 wBothBound 5).1 (by decide)).1,
   ((claim_C1 wBothBound 5).2.1 (by decide)).1,
   ((claim_C1 wAsync 5).2.2.1 (by decide)).1,
   ((claim_C1 wAsync 5).2.2.2 (by decide)).2⟩

/-- C2: `emplaceAndPop(tDatums)` is the sequential composition of `waitAndEmplace`
then `waitAndPop`: when the emplace succeeds the whole result is the result of the
subsequent `waitAndPop` run on the post-emplace state; when the emplace fails the call
returns false with the post-emplace state, never reaching the pop. -/
theorem claim_C2 {Wk I C : Type} (w : Wrapper Wk I C) (d : I) :
    ((w.waitAndEmplace d).ok = true →
      w.emplaceAndPop d =
        (w.waitAndEmplace d).state.waitAndPop (w.waitAndEmplace d).datumsOut) ∧
    ((w.waitAndEmplace d).ok = false →
      w.emplaceAndPop d =
        { ok := false, reported := (w.waitAndEmplace d).reported,
          datumsOut := (w.waitAndEmplace d).datumsOut,
          state := (w.waitAndEmplace d).state }) := by
  constructor <;> intro h <;> simp [Wrapper.emplaceAndPop, h]

/-- C2 witness: a succeeding emplace (`wAsync`) composes into the pop; a failing
emplace (`wSync`) short-circuits to false. -/
theorem claim_C2_witness :
    wAsync.emplaceAndPop 5 =
      (wAsync.waitAndEmplace 5).state.waitAndPop (wAsync.waitAndEmplace 5).datumsOut ∧
    wSync.emplaceAndPop 3 =
      { ok := false, reported := (wSync.waitAndEmplace 3).reported,
        datumsOut := (wSync.waitAndEmplace 3).datumsOut,
        state := (wSync.waitAndEmplace 3).state } :=
  ⟨(claim_C2 wAsync 5).1 (by decide), (claim_C2 wSync 3).2 (by decide)⟩

/-- C4 (as stated) is false on the code: with a worker already bound at `Input`,
re-registering without clearing reports no usage error and the binding is replaced by
the new worker. -/
theorem claim_C4_counterexample :
    wInputBound.mUserWs.get WorkerType.Input = [some 1] ∧
    (wInputBound.setWorker WorkerType.Input (some 2) true).1 = none ∧
    (wInputBound.setWorker WorkerType.Input (some 2) true).2.mUserWs.get WorkerType.Input
      = [some 2] := by
  decide

/-- C4 amended: calling `setWorker` again for a role that already has a bound worker is
accepted without any usage error, and the previous binding is silently replaced by the
new worker. -/
theorem claim_C4 {Wk I C : Type} (w : Wrapper Wk I C) (workerType : WorkerType)
    (wk : Wk) (flag : Bool) (_h : w.mUserWs.get workerType ≠ []) :
    (w.setWorker workerType (some wk) flag).1 = none ∧
    (w.setWorker workerType (some wk) flag).2.mUserWs.get workerType = [some wk] := by
  refine ⟨rfl, ?_⟩
  simp [Wrapper.setWorker, Wrapper.setWorkerBody, RoleArray.get_set_same]

/-- C4 witness: re-registration at the already-bound `Input` role of `wInputBound`. -/
theorem claim_C4_witness :
    (wInputBound.setWorker WorkerType.Input (some 7) false).1 = none ∧
    (wInputBound.setWorker WorkerType.Input (some 7) false).2.mUserWs.get WorkerType.Input
      = [some 7] :=
  claim_C4 wInputBound WorkerType.Input 7 false (by decide)

/-- C5: after `setWorker` with a non-null worker, the role's slot holds exactly the one
new worker (the previous binding is entirely replaced), the role's new-thread flag
equals the given flag, and the registrations and flags of every other role are
unchanged. -/
theorem claim_C5 {Wk I C : Type} (w : Wrapper Wk I C) (workerType : WorkerType)
    (wk : Wk) (flag : Bool) :
    (w.setWorker workerType (some wk) flag).1 = none ∧
    (w.setWorker workerType (some wk) flag).2.mUserWs.get workerType = [some wk] ∧
    (w.setWorker workerType (some wk) flag).2.mUserWsOnNewThread.get workerType = flag ∧
    (∀ wt2, wt2 ≠ workerType →
      (w.setWorker workerType (some wk) flag).2.mUserWs.get wt2 = w.mUserWs.get wt2 ∧
      (w.setWorker workerType (some wk) flag).2.mUserWsOnNewThread.get wt2 =
        w.mUserWsOnNewThread.get wt2) := by
  refine ⟨rfl, ?_, ?_, fun wt2 h => ⟨?_, ?_⟩⟩
  · simp [Wrapper.setWorker, Wrapper.setWorkerBody, RoleArray.get_set_same]
  · simp [Wrapper.setWorker, Wrapper.setWorkerBody, RoleArray.get_set_same]
  · simp [Wrapper.setWorker, Wrapper.setWorkerBody, RoleArray.get_set_other _ _ _ _ h]
  · simp [Wrapper.setWorker, Wrapper.setWorkerBody, RoleArray.get_set_other _ _ _ _ h]

/-- C5 witness: registering worker 3 at `Input` of `wAsync` with flag `false`. -/
theorem claim_C5_witness :
    (wAsync.setWorker WorkerType.Input (some 3) false).1 = none ∧
    (wAsync.setWorker WorkerType.Input (some 3) false).2.mUserWs.get WorkerType.Input
      = [some 3] ∧
    (wAsync.setWorker WorkerType.Input (some 3) false).2.mUserWsOnNewThread.get
      WorkerType.Input = false ∧
    (wAsync.setWorker WorkerType.Input (some 3) false).2.mUserWs.get WorkerType.Output
      = wAsync.mUserWs.get WorkerType.Output :=
  ⟨(claim_C5 wAsync WorkerType.Input 3 false).1,
   (claim_C5 wAsync WorkerType.Input 3 false).2.1,
   (claim_C5 wAsync WorkerType.Input 3 false).2.2.1,
   ((claim_C5 wAsync WorkerType.Input 3 false).2.2.2 WorkerType.Output (by decide)).1⟩

/-- C6: `setWorker` with a null worker reports the usage error synchronously and
returns with the wrapper — in particular both registration tables — unchanged. -/
theorem claim_C6 {Wk I C : Type} (w : Wrapper Wk I C) (workerType : WorkerType)
    (flag : Bool) :
    w.setWorker workerType none flag = (some "Your worker is a nullptr.", w) := rfl

/-- C3 (as stated) is false on the code: in `AsynchronousIn` mode — a mode other than
the fully asynchronous one — `emplaceAndPop` is not rejected before performing any
transfer: the blocking emplace succeeds and deposits the item in the entry queue, and
only the subsequent pop fails. -/
theorem claim_C3_counterexample :
    wAsyncIn.mThreadManagerMode ≠ ThreadManagerMode.Asynchronous ∧
    wAsyncIn.mThreadManager.inputQueue = [] ∧
    (wAsyncIn.emplaceAndPop 7).ok = false ∧
    (wAsyncIn.emplaceAndPop 7).state.mThreadManager.inputQueue = [7] := by
  decide

/-- C3 amended: when the wrapper's mode makes the input end internally driven
(`Synchronous` or `AsynchronousOut`), `emplaceAndPop` fails with a usage error and
performs no transfer (the state is unchanged); in `AsynchronousIn` mode the call always
returns false, and whenever the emplace stage succeeded (transferring the item) the
usage error is reported at the pop stage. -/
theorem claim_C3 {Wk I C : Type} (w : Wrapper Wk I C) (d : I)
    (hlink : w.mThreadManager.mode = w.mThreadManagerMode) :
    ((w.mThreadManagerMode = ThreadManagerMode.Synchronous ∨
        w.mThreadManagerMode = ThreadManagerMode.AsynchronousOut) →
      (w.emplaceAndPop d).ok = false ∧ (w.emplaceAndPop d).reported.isSome = true ∧
        (w.emplaceAndPop d).state = w) ∧
    (w.mThreadManagerMode = ThreadManagerMode.AsynchronousIn →
      (w.emplaceAndPop d).ok = false ∧
      ((w.waitAndEmplace d).ok = true → (w.emplaceAndPop d).reported.isSome = true)) := by
  constructor
  · intro hm
    have h1 : w.mThreadManager.mode ≠ ThreadManagerMode.Asynchronous := by
      rcases hm with hm | hm <;> rw [hlink, hm] <;> simp
    have h2 : w.mThreadManager.mode ≠ ThreadManagerMode.AsynchronousIn := by
      rcases hm with hm | hm <;> rw [hlink, hm] <;> simp
    obtain ⟨hok, hrep, hst⟩ := waitAndEmplace_rejected_of_wrong_mode w d h1 h2
    refine ⟨?_, ?_, ?_⟩ <;> simp [Wrapper.emplaceAndPop, hok, hrep, hst]
  · intro hm
    rcases Bool.eq_false_or_eq_true ((w.waitAndEmplace d).ok) with h1 | h1
    · have hmode2 : (w.waitAndEmplace d).state.mThreadManager.mode
          = ThreadManagerMode.AsynchronousIn := by
        rw [waitAndEmplace_tm_mode, hlink, hm]
      have hpop := waitAndPop_rejected_of_wrong_mode (w.waitAndEmplace d).state
        (w.waitAndEmplace d).datumsOut (by rw [hmode2]; simp) (by rw [hmode2]; simp)
      exact ⟨by simp [Wrapper.emplaceAndPop, h1, hpop.1],
        fun _ => by simp [Wrapper.emplaceAndPop, h1, hpop.2.1]⟩
    · refine ⟨by simp [Wrapper.emplaceAndPop, h1], fun hcontra => ?_⟩
      rw [h1] at hcontra
      exact absurd hcontra (by simp)

/-- C3 witness: rejection without transfer in `Synchronous` mode; false return with a
reported usage error after a successful emplace in `AsynchronousIn` mode. -/
theorem claim_C3_witness :
    (wSync.emplaceAndPop 3).ok = false ∧
    (wSync.emplaceAndPop 3).reported.isSome = true ∧
    (wSync.emplaceAndPop 3).state = wSync ∧
    (wAsyncIn.emplaceAndPop 7).ok = false ∧
    (wAsyncIn.emplaceAndPop 7).reported.isSome = true :=
  ⟨((claim_C3 wSync 3 rfl).1 (Or.inl rfl)).1,
   ((claim_C3 wSync 3 rfl).1 (Or.inl rfl)).2.1,
   ((claim_C3 wSync 3 rfl).1 (Or.inl rfl)).2.2,
   ((claim_C3 wAsyncIn 7 rfl).2 rfl).1,
   ((claim_C3 wAsyncIn 7 rfl).2 rfl).2 (by decide)⟩

/-- C7: whenever the body of a caller-facing transfer call raises an internal error,
the public call catches it and returns the failure indicator false (reporting the
message) instead of letting the error escape; for `emplaceAndPop` this holds for an
error raised in either of its two stages. -/
theorem claim_C7 {Wk I C : Type} (w : Wrapper Wk I C) (d : I) (msg : String) :
    (w.tryEmplaceBody d = Except.error msg →
      w.tryEmplace d = { ok := false, reported := some msg, datumsOut := d, state := w }) ∧
    (w.waitAndEmplaceBody d = Except.error msg →
      w.waitAndEmplace d = { ok := false, reported := some msg, datumsOut := d, state := w }) ∧
    (w.tryPushBody d = Except.error msg →
      w.tryPush d = { ok := false, reported := some msg, datumsOut := d, state := w }) ∧
    (w.waitAndPushBody d = Except.error msg →
      w.waitAndPush d = { ok := false, reported := some msg, datumsOut := d, state := w }) ∧
    (w.tryPopBody d = Except.error msg →
      w.tryPop d = { ok := false, reported := some msg, datumsOut := d, state := w }) ∧
    (w.waitAndPopBody d = Except.error msg →
      w.waitAndPop d = { ok := false, reported := some msg, datumsOut := d, state := w }) ∧
    (w.waitAndEmplaceBody d = Except.error msg → (w.emplaceAndPop d).ok = false) ∧
    ((w.waitAndEmplace d).ok = true →
      (w.waitAndEmplace d).state.waitAndPopBody (w.waitAndEmplace d).datumsOut
        = Except.error msg →
      (w.emplaceAndPop d).ok = false) := by
  refine ⟨?_, ?_, ?_, ?_, ?_, ?_, ?_, ?_⟩
  · intro h
    simp [Wrapper.tryEmplace, h, liftTransfer]
  · intro h
    simp [Wrapper.waitAndEmplace, h, liftTransfer]
  · intro h
    simp [Wrapper.tryPush, h, liftTransfer]
  · intro h
    simp [Wrapper.waitAndPush, h, liftTransfer]
  · intro h
    simp [Wrapper.tryPop, h, liftTransfer]
  · intro h
    simp [Wrapper.waitAndPop, h, liftTransfer]
  · intro h
    have hok : (w.waitAndEmplace d).ok = false := by
      simp [Wrapper.waitAndEmplace, h, liftTransfer]
    simp [Wrapper.emplaceAndPop, hok]
  · intro h1 h2
    simp [Wrapper.emplaceAndPop, h1, Wrapper.waitAndPop, h2, liftTransfer]

/-- C7 witness: every rejected transfer call on `wBothBound` returns false with the
reported message; an `AsynchronousIn` `emplaceAndPop` whose pop stage raises also
returns false. -/
theorem claim_C7_witness :
    wBothBound.tryEmplace 5 =
      { ok := false, reported := some inputWorkerEmplaceError, datumsOut := 5,
        state := wBothBound } ∧
    wBothBound.waitAndEmplace 5 =
      { ok := false, reported := some inputWorkerEmplaceError, datumsOut := 5,
        state := wBothBound } ∧
    wBothBound.tryPush 5 =
      { ok := false, reported := some inputWorkerPushError, datumsOut := 5,
        state := wBothBound } ∧
    wBothBound.waitAndPush 5 =
      { ok := false, reported := some inputWorkerPushError, datumsOut := 5,
        state := wBothBound } ∧
    wBothBound.tryPop 5 =
      { ok := false, reported := some outputWorkerPopError, datumsOut := 5,
        state := wBothBound } ∧
    wBothBound.waitAndPop 5 =
      { ok := false, reported := some outputWorkerPopError, datumsOut := 5,
        state := wBothBound } ∧
    (wBothBound.emplaceAndPop 5).ok = false ∧
    (wAsyncIn.emplaceAndPop 7).ok = false :=
  ⟨(claim_C7 wBothBound 5 inputWorkerEmplaceError).1 rfl,
   (claim_C7 wBothBound 5 inputWorkerEmplaceError).2.1 rfl,
   (claim_C7 wBothBound 5 inputWorkerPushError).2.2.1 rfl,
   (claim_C7 wBothBound 5 inputWorkerPushError).2.2.2.1 rfl,
   (claim_C7 wBothBound 5 outputWorkerPopError).2.2.2.2.1 rfl,
   (claim_C7 wBothBound 5 outputWorkerPopError).2.2.2.2.2.1 rfl,
   (claim_C7 wBothBound 5 inputWorkerEmplaceError).2.2.2.2.2.2.1 rfl,
   (claim_C7 wAsyncIn 7 tmPopModeError).2.2.2.2.2.2.2 rfl rfl⟩

/-- C8: the `cv::Mat` overload of `emplaceAndPop` builds a batch of exactly one datum
whose `cvInputData` is the given matrix, runs the batch-level `emplaceAndPop` on it,
and returns the batch variable unconditionally — the boolean verdict of the transfer is
discarded, and on a failed transfer the returned value is exactly the built batch, so
the failure is not observable in the returned value. -/
theorem claim_C8 {Wk C M : Type} (w : Wrapper Wk (Option (List (Datum M))) C)
    (cvMat : M) :
    mkSingleDatumBatch cvMat = some [{ cvInputData := some cvMat }] ∧
    (w.emplaceAndPopMat cvMat).1 = (w.emplaceAndPop (mkSingleDatumBatch cvMat)).datumsOut ∧
    ((w.emplaceAndPop (mkSingleDatumBatch cvMat)).ok = false →
      (w.emplaceAndPopMat cvMat).1 = some [{ cvInputData := some cvMat }]) := by
  refine ⟨rfl, rfl, fun h => ?_⟩
  exact emplaceAndPop_fail_datumsOut w (mkSingleDatumBatch cvMat) h

/-- C8 witness: on `wSyncMat` the underlying transfer fails, yet the returned value is
the ordinary built batch. -/
theorem claim_C8_witness :
    (wSyncMat.emplaceAndPop (mkSingleDatumBatch 4)).ok = false ∧
    (wSyncMat.emplaceAndPopMat 4).1 = some [{ cvInputData := some 4 }] :=
  ⟨by decide, (claim_C8 wSyncMat 4).2.2 (by decide)⟩

/-- C9: the stored thread-manager mode `mThreadManagerMode` is never changed by any
operation — worker registration, configuration, disabling multi-threading, start, exec,
stop, or any transfer call. -/
theorem claim_C9 {Wk I C : Type} (w : Wrapper Wk I C) (d : I) (workerType : WorkerType)
    (worker : Option Wk) (flag : Bool) (cfg : C) :
    (w.setWorker workerType worker flag).2.mThreadManagerMode = w.mThreadManagerMode ∧
    (w.configure cfg).mThreadManagerMode = w.mThreadManagerMode ∧
    w.disableMultiThreading.mThreadManagerMode = w.mThreadManagerMode ∧
    w.startCall.mThreadManagerMode = w.mThreadManagerMode ∧
    w.execCall.mThreadManagerMode = w.mThreadManagerMode ∧
    w.stopCall.mThreadManagerMode = w.mThreadManagerMode ∧
    (w.tryEmplace d).state.mThreadManagerMode = w.mThreadManagerMode ∧
    (w.waitAndEmplace d).state.mThreadManagerMode = w.mThreadManagerMode ∧
    (w.tryPush d).state.mThreadManagerMode = w.mThreadManagerMode ∧
    (w.waitAndPush d).state.mThreadManagerMode = w.mThreadManagerMode ∧
    (w.tryPop d).state.mThreadManagerMode = w.mThreadManagerMode ∧
    (w.waitAndPop d).state.mThreadManagerMode = w.mThreadManagerMode ∧
    (w.emplaceAndPop d).state.mThreadManagerMode = w.mThreadManagerMode := by
  refine ⟨?_, rfl, rfl, rfl, rfl, rfl, tryEmplace_mode w d, waitAndEmplace_mode w d,
    tryPush_mode w d, waitAndPush_mode w d, tryPop_mode w d, waitAndPop_mode w d,
    emplaceAndPop_mode w d⟩
  cases worker with
  | none => rfl
  | some wk => rfl

/-- C10: destroying the wrapper performs the stop-teardown: the thread manager is
stopped and reset (not running, queues drained), and every user worker registration is
cleared. -/
theorem claim_C10 {Wk I C : Type} (w : Wrapper Wk I C) :
    (∀ workerType, (w.destruct).mUserWs.get workerType = []) ∧
    (w.destruct).mThreadManager = w.stopCall.mThreadManager.reset ∧
    (w.destruct).mThreadManager.running = false ∧
    (w.destruct).mThreadManager.inputQueue = [] ∧
    (w.destruct).mThreadManager.outputQueue = [] := by
  refine ⟨fun workerType => ?_, rfl, rfl, rfl, rfl⟩
  cases workerType <;> rfl

end OP
